import Mathlib

/-!
Shallow embedding of the x402facilitators static-site generator
(`website/build.ts`): data model, catalog aggregation, explorer link and
icon resolution, card rendering, and template substitution, together with
theorems checking the natural-language specification against this code.

Machine integers do not occur in the generator (all counts are small
naturals, fees are JS numbers used only with exact decimal literals), so
counts are `Nat`, timestamps are `Int` milliseconds since the Unix epoch,
and fees are `ℚ`.
-/

/-- The `Network` string enum of the repository: its three values are the
strings "base", "polygon", "solana". -/
inductive Network where
  | base
  | polygon
  | solana
deriving DecidableEq

/-- The string value carried by a `Network` enum member, which is also the
object key under which addresses are stored. -/
def Network.key : Network → String
  | .base => "base"
  | .polygon => "polygon"
  | .solana => "solana"

/-- A token reference carried on an address; never inspected by the
generator beyond being stored. -/
structure TokenRef where
  name : String
deriving DecidableEq

/-- An on-chain address record. `dateOfFirstTransaction` is an optional JS
`Date`, embedded as milliseconds since the Unix epoch (date-only `Date`
literals denote UTC midnight). -/
structure Address where
  address : String
  tokens : List TokenRef
  dateOfFirstTransaction : Option Int
deriving DecidableEq

/-- Presentational facilitator metadata. -/
structure FacilitatorMetadata where
  name : String
  image : String
  docsUrl : String
  color : String
deriving DecidableEq

/-- A facilitator record. `addresses` embeds the JS object mapping network
keys to address arrays as an insertion-ordered association list (JS string
keys iterate in insertion order); `accessType` is optional, as in the
TypeScript type. -/
structure Facilitator where
  id : String
  metadata : FacilitatorMetadata
  facilitatorUrl : String
  fee : ℚ
  accessType : Option String
  addresses : List (Network × List Address)
deriving DecidableEq

/-- `getTotalAddressesForFacilitator` from `build.ts`:
`Object.values(facilitator.addresses).reduce((sum, addresses) => sum + addresses.length, 0)`. -/
def getTotalAddressesForFacilitator (facilitator : Facilitator) : Nat :=
  (facilitator.addresses.map Prod.snd).foldl
    (fun sum addresses => sum + addresses.length) 0

/-- `getExplorerUrl` from `build.ts`: a fixed table from network to the
explorer URL with the address appended. -/
def getExplorerUrl (address : String) (network : Network) : String :=
  match network with
  | .base => "https://basescan.org/address/" ++ address
  | .polygon => "https://polygonscan.com/address/" ++ address
  | .solana => "https://explorer.solana.com/address/" ++ address

/-- `getNetworkIcon` from `build.ts`. -/
def getNetworkIcon (network : Network) : String :=
  match network with
  | .base => "base.webp"
  | .polygon => "polygon.webp"
  | .solana => "solana.webp"

/-- `getAccessTypeIcons` from `build.ts`. The argument is the possibly
absent `accessType` field; the JS function returns icons only for the
exact strings "gated_paid" and "gated". -/
def getAccessTypeIcons (accessType : Option String) : String :=
  if accessType = some "gated_paid" then
    "<span class=\"access-icon\">🔒</span><span class=\"access-icon\">💰</span>"
  else if accessType = some "gated" then
    "<span class=\"access-icon\">🔒</span>"
  else ""

/-- The inline ternary in `generateAddressList` choosing the explorer
display name from the network key string. -/
def explorerName (network : String) : String :=
  if network = "base" then "BaseScan"
  else if network = "polygon" then "PolygonScan"
  else "Solana Explorer"

/-- One entry pushed onto `addressItems` in `generateAddressList`,
transcribed from the template literal in `build.ts`. -/
def addressItem (network : Network) (addr : Address) : String :=
  "\n        <div class=\"address-item\">\n          <span class=\"network-label "
    ++ network.key
    ++ "\">" ++ network.key
    ++ "</span>\n          <div class=\"address-text\">" ++ addr.address
    ++ "</div>\n          <div class=\"explorer-links\">\n            <a href=\""
    ++ getExplorerUrl addr.address network
    ++ "\" target=\"_blank\" rel=\"noopener noreferrer\" class=\"explorer-btn\">\n              <img src=\""
    ++ getNetworkIcon network
    ++ "\" alt=\"" ++ network.key
    ++ "\" class=\"explorer-icon\" />\n              View on "
    ++ explorerName network.key
    ++ "\n            </a>\n          </div>\n        </div>\n      "

/-- `generateAddressList` from `build.ts`: one item per (network, address)
pair in map iteration order, joined with the empty string. -/
def generateAddressList (facilitator : Facilitator) : String :=
  String.join
    (facilitator.addresses.flatMap (fun p => p.2.map (addressItem p.1)))

/-- Month abbreviations produced by `toLocaleDateString` with locale
`en-US` and `month: short`. -/
def monthAbbr (m : Nat) : String :=
  match m with
  | 1 => "Jan" | 2 => "Feb" | 3 => "Mar" | 4 => "Apr"
  | 5 => "May" | 6 => "Jun" | 7 => "Jul" | 8 => "Aug"
  | 9 => "Sep" | 10 => "Oct" | 11 => "Nov" | 12 => "Dec"
  | _ => ""

/-- Convert a count of days since 1970-01-01 to a Gregorian calendar date
(year, month, day), the standard civil-from-days algorithm. -/
def civilFromDays (z0 : Int) : Int × Nat × Nat :=
  let z := z0 + 719468
  let era := z.fdiv 146097
  let doe := (z - era * 146097).toNat
  let yoe := (doe - doe / 1460 + doe / 36524 - doe / 146096) / 365
  let doy := doe - (365 * yoe + yoe / 4 - yoe / 100)
  let mp := (5 * doy + 2) / 153
  let d := doy - (153 * mp + 2) / 5 + 1
  let m := if mp < 10 then mp + 3 else mp - 9
  (era * 400 + yoe + (if m ≤ 2 then 1 else 0), m, d)

/-- Days since 1970-01-01 of a Gregorian date, the standard days-from-civil
algorithm; used to build concrete `Date` inputs. -/
def daysFromCivil (y : Int) (m d : Nat) : Int :=
  let y2 : Int := if m ≤ 2 then y - 1 else y
  let era := y2.fdiv 400
  let yoe := (y2 - era * 400).toNat
  let mp := if m > 2 then m - 3 else m + 9
  let doy := (153 * mp + 2) / 5 + d - 1
  let doe := yoe * 365 + yoe / 4 - yoe / 100 + doy
  era * 146097 + (doe : Int) - 719468

/-- Milliseconds since the Unix epoch of UTC midnight of a date; the value
of the JS expression `new Date("YYYY-MM-DD").getTime()`. -/
def mkDateMs (y : Int) (m d : Nat) : Int :=
  daysFromCivil y m d * 86400000

/-- The embedding of
`new Date(ms).toLocaleDateString("en-US", { year: "numeric", month: "short", day: "numeric" })`.
JS formats the instant in the host time zone, which enters as
`tzOffsetMin`, the host offset in minutes east of UTC (0 for UTC, -300 for
New York in winter). -/
def formatLocaleDate (tzOffsetMin : Int) (ms : Int) : String :=
  let localDays := (ms + tzOffsetMin * 60000).fdiv 86400000
  let c := civilFromDays localDays
  monthAbbr c.2.1 ++ " " ++ toString c.2.2 ++ ", " ++ toString c.1

/-- The list of defined `dateOfFirstTransaction` values collected by the
nested loops of `getFirstTransactionDate`, in iteration order. -/
def datesOf (facilitator : Facilitator) : List Int :=
  (facilitator.addresses.map Prod.snd).flatMap
    (fun addresses => addresses.filterMap (fun a => a.dateOfFirstTransaction))

/-- `getFirstTransactionDate` from `build.ts`: `null` when no address
carries a date, otherwise `Math.min` over the timestamps formatted with
`toLocaleDateString` in the host time zone `tzOffsetMin`. -/
def getFirstTransactionDate (tzOffsetMin : Int) (facilitator : Facilitator) :
    Option String :=
  match datesOf facilitator with
  | [] => none
  | d :: rest => some (formatLocaleDate tzOffsetMin (rest.foldl min d))

/-- Decimal digits of the fractional part `rem / den`, with fuel; the JS
number-to-string conversion prints exactly these digits for numbers with a
terminating decimal expansion (every fee literal in the catalog). -/
def fracDigits (fuel rem den : Nat) : String :=
  match fuel with
  | 0 => ""
  | fuel + 1 =>
    if rem = 0 then ""
    else toString (rem * 10 / den) ++ fracDigits fuel (rem * 10 % den) den

/-- Embedding of the JS template interpolation `${facilitator.fee}`:
shortest decimal notation for a number whose decimal expansion
terminates. -/
def jsNumToString (q : ℚ) : String :=
  let sign := if q < 0 then "-" else ""
  let n := q.num.natAbs
  let d := q.den
  sign ++ toString (n / d) ++
    (if n % d = 0 then "" else "." ++ fracDigits 20 (n % d) d)

/-- The `data-fee` attribute value in `generateCard`: the JS code computes
`isFree = facilitator.fee === 0` and emits `isFree ? "free" : "paid"`. -/
def dataFee (facilitator : Facilitator) : String :=
  if facilitator.fee = 0 then "free" else "paid"

/-- The `data-access` attribute value in `generateCard`:
`facilitator.accessType || "open"` (JS `||` replaces both an absent field
and the empty string by "open"). -/
def dataAccess (facilitator : Facilitator) : String :=
  match facilitator.accessType with
  | none => "open"
  | some s => if s = "" then "open" else s

/-- The fee fragment of `generateCard`:
`facilitator.fee > 0 ? <span>${facilitator.fee}% Fee</span> : <span>0% Fee</span>`. -/
def feeDisplay (facilitator : Facilitator) : String :=
  if facilitator.fee > 0 then
    "<span class=\"fee-display\">" ++ jsNumToString facilitator.fee ++ "% Fee</span>"
  else "<span class=\"fee-display\">0% Fee</span>"

/-- The access-icon fragment of `generateCard`:
`accessIcons ? <div class="access-icons">${accessIcons}</div> : ""`
(a JS string is falsy exactly when it is empty). -/
def accessIconsBlock (facilitator : Facilitator) : String :=
  let accessIcons := getAccessTypeIcons facilitator.accessType
  if accessIcons = "" then ""
  else "<div class=\"access-icons\">" ++ accessIcons ++ "</div>"

/-- The first-transaction fragment of `generateCard`:
`firstDate ? <div class="info-row">...${firstDate}...</div> : ""`. -/
def firstTransactionBlock (tzOffsetMin : Int) (facilitator : Facilitator) : String :=
  match getFirstTransactionDate tzOffsetMin facilitator with
  | none => ""
  | some firstDate =>
    "\n        <div class=\"info-row\">\n          <span class=\"info-label\">First Transaction</span>\n          <span class=\"info-value\">"
      ++ firstDate ++ "</span>\n        </div>\n        "

/-- The network badge list of `generateCard`: one badge per key of the
addresses map, in insertion order, joined with the empty string. -/
def networkBadges (facilitator : Facilitator) : String :=
  String.join
    (facilitator.addresses.map
      (fun p =>
        "<span class=\"network-badge network-" ++ p.1.key ++ "\">" ++ p.1.key ++ "</span>"))

/-- The part of the `generateCard` template literal before the
access-icon fragment. -/
def cardA (f : Facilitator) : String :=
  "\n    <div class=\"card\" id=\"card-" ++ f.id
  ++ "\" \n         data-networks=\""
  ++ String.intercalate "," (f.addresses.map (fun p => p.1.key))
  ++ "\"\n         data-fee=\"" ++ dataFee f
  ++ "\"\n         data-access=\"" ++ dataAccess f
  ++ "\">\n      <div class=\"card-accent\" style=\"background: " ++ f.metadata.color
  ++ ";\"></div>\n      <div class=\"card-header\">\n        <img \n          src=\""
  ++ f.metadata.image
  ++ "\" \n          alt=\"" ++ f.metadata.name
  ++ " logo\" \n          class=\"card-logo\"\n          onerror=\"this.style.display=\x27none\x27\"\n        />\n        <div class=\"card-title-section\">\n          <div class=\"card-title\">"
  ++ f.metadata.name
  ++ "</div>\n          <div class=\"card-id\">" ++ f.id
  ++ "</div>\n        </div>\n      </div>\n      \n      <div class=\"card-content\">\n        <div class=\"main-address-container\">\n          <div class=\"main-address-label\">\n            Facilitator API URL\n            "

/-- The part of the `generateCard` template literal between the
access-icon fragment and the fee fragment. -/
def cardB (_f : Facilitator) : String :=
  "\n            "

/-- The part of the `generateCard` template literal between the fee
fragment and the first-transaction fragment. -/
def cardC (f : Facilitator) : String :=
  "\n          </div>\n          <div class=\"main-address-display\">\n            <div class=\"main-address-text\">"
  ++ f.facilitatorUrl
  ++ "</div>\n            <button class=\"copy-btn\" onclick=\"copyAddress(\x27"
  ++ f.facilitatorUrl
  ++ "\x27, this)\">\n              Copy\n            </button>\n          </div>\n        </div>\n\n        <div class=\"info-row\">\n          <span class=\"info-label\">Networks</span>\n          <div class=\"networks\">\n            "
  ++ networkBadges f
  ++ "\n          </div>\n        </div>\n        \n        <div class=\"info-row-wrapper\">\n          <div class=\"info-row addresses-interactive\" onclick=\"toggleAddresses(\x27"
  ++ f.id
  ++ "\x27)\">\n            <span class=\"info-label\">Addresses</span>\n            <span class=\"addresses-count\">"
  ++ toString (getTotalAddressesForFacilitator f)
  ++ "</span>\n          </div>\n          \n          <div class=\"address-list\">\n            "
  ++ generateAddressList f
  ++ "\n          </div>\n        </div>\n        \n        "

/-- The part of the `generateCard` template literal after the
first-transaction fragment. -/
def cardD (f : Facilitator) : String :=
  "\n        \n        <a href=\"" ++ f.metadata.docsUrl
  ++ "\" target=\"_blank\" class=\"card-link\">\n          View Documentation\n        </a>\n      </div>\n    </div>\n  "

/-- `generateCard` from `build.ts`: the full template literal, written as
the concatenation of its fixed parts and the four computed fragments. -/
def generateCard (tzOffsetMin : Int) (f : Facilitator) : String :=
  cardA f ++ accessIconsBlock f ++ cardB f ++ feeDisplay f ++ cardC f
    ++ firstTransactionBlock tzOffsetMin f ++ cardD f

/-- `getTotalNetworks` from `build.ts`: insert every network key of every
facilitator into a `Set` and take its size. -/
def getTotalNetworks (facilitators : List Facilitator) : Nat :=
  (facilitators.foldl
    (fun networks f =>
      (f.addresses.map (fun p => p.1.key)).foldl
        (fun s network => insert network s) networks)
    (∅ : Finset String)).card

/-- `getTotalAddresses` from `build.ts`: running sum of address-array
lengths over every facilitator and network bucket. -/
def getTotalAddresses (facilitators : List Facilitator) : Nat :=
  facilitators.foldl
    (fun total f =>
      (f.addresses.map Prod.snd).foldl
        (fun t addresses => t + addresses.length) total)
    0

/-- The comparator passed to `allFacilitators.sort`: `bTotal - aTotal`
orders by total addresses descending. Element `a` may stay before `b`
exactly when the comparator is nonpositive. -/
def cardOrder (a b : Facilitator) : Prop :=
  getTotalAddressesForFacilitator b ≤ getTotalAddressesForFacilitator a

instance : DecidableRel cardOrder := fun a b =>
  inferInstanceAs
    (Decidable (getTotalAddressesForFacilitator b ≤ getTotalAddressesForFacilitator a))

/-- The in-place `allFacilitators.sort(...)` call of `generateHTML`.
ECMAScript requires `Array.prototype.sort` to be stable, and for the
consistent comparator above the sorted stable permutation is unique, so
any stable sorting algorithm is a faithful model; we use structurally
recursive insertion sort. -/
def sortFacilitators (facilitators : List Facilitator) : List Facilitator :=
  facilitators.insertionSort cardOrder

/-- ECMAScript `GetSubstitution` for a string pattern (no capture groups):
the replacement text is copied, interpreting the escapes $$, $&, $` and
$\x27 (dollar + matched pattern + text before / after the match); any
other $ is literal. `matched`, `before`, `after` are the pattern and the
parts of the subject around the match. -/
def getSubstitution (matched before after : List Char) : List Char → List Char
  | [] => []
  | [c] => [c]
  | c :: d :: rest =>
    if c = '$' then
      if d = '$' then '$' :: getSubstitution matched before after rest
      else if d = '&' then matched ++ getSubstitution matched before after rest
      else if d = Char.ofNat 96 then before ++ getSubstitution matched before after rest
      else if d = Char.ofNat 39 then after ++ getSubstitution matched before after rest
      else c :: getSubstitution matched before after (d :: rest)
    else c :: getSubstitution matched before after (d :: rest)

/-- Split a character list at the first occurrence of `pat`: returns the
part strictly before the match and the part strictly after it. -/
def findSplit (pat : List Char) : List Char → Option (List Char × List Char)
  | [] => if pat <+: ([] : List Char) then some ([], []) else none
  | c :: rest =>
    if pat <+: c :: rest then some ([], (c :: rest).drop pat.length)
    else
      match findSplit pat rest with
      | none => none
      | some (b, a) => some (c :: b, a)

/-- JS `String.prototype.replace` with a string pattern and a string
replacement: replace the first occurrence of `pat`, passing the
replacement through `GetSubstitution`; return the subject unchanged when
`pat` does not occur. -/
def jsReplace (s pat rep : String) : String :=
  match findSplit pat.data s.data with
  | none => s
  | some (b, a) => ⟨b ++ getSubstitution pat.data b a rep.data ++ a⟩

/-- `generateHTML` from `build.ts`, with the file read replaced by the
`template` argument and the module-level `allFacilitators` array passed
explicitly. The `.sort` call mutates that array in place, so the result
is the generated page text together with the post-run state of the
array. The host time zone offset enters through date formatting. -/
def generateHTML (tzOffsetMin : Int) (facilitators : List Facilitator)
    (template : String) : String × List Facilitator :=
  let sorted := sortFacilitators facilitators
  let facilitatorCards :=
    String.intercalate "\n" (sorted.map (generateCard tzOffsetMin))
  let html :=
    jsReplace
      (jsReplace
        (jsReplace
          (jsReplace template "\x7b\x7bTOTAL_FACILITATORS\x7d\x7d" (toString sorted.length))
          "\x7b\x7bTOTAL_NETWORKS\x7d\x7d" (toString (getTotalNetworks sorted)))
        "\x7b\x7bTOTAL_ADDRESSES\x7d\x7d" (toString (getTotalAddresses sorted)))
      "\x7b\x7bFACILITATOR_CARDS\x7d\x7d" facilitatorCards
  (html, sorted)

/-- Specification-side expression for the total address count: the sum,
over every facilitator and every network bucket, of address-array
lengths. -/
def specTotalAddresses (c : List Facilitator) : Nat :=
  (c.map (fun f => ((f.addresses.map (fun p => p.2.length)).sum))).sum

/-- Specification-side expression for the network statistic: the set of
distinct network keys appearing in any facilitator of the catalog. -/
def specNetworkSet (c : List Facilitator) : Finset String :=
  (c.flatMap (fun f => f.addresses.map (fun p => p.1.key))).toFinset

/-- The per-network explorer base URL named by the specification; the
full link is the base followed by "/address/" and the raw address. -/
def explorerBase (network : Network) : String :=
  match network with
  | .base => "https://basescan.org"
  | .polygon => "https://polygonscan.com"
  | .solana => "https://explorer.solana.com"

/-- Modelled from the spec: the Template Compositor substitution step as
the specification words it — the first occurrence of the placeholder is
replaced by the replacement text verbatim; a template without the
placeholder is returned unchanged. Compared against `jsReplace`, the
embedding of the actual `String.prototype.replace` call. -/
def replaceOnceVerbatim (s pat rep : String) : String :=
  match findSplit pat.data s.data with
  | none => s
  | some (b, a) => ⟨b ++ rep.data ++ a⟩

/-- Modelled from the spec: the whole compositor as the specification
describes it — the four placeholders replaced, in the order the code
applies them, by the three totals as decimal text and by the
newline-joined cards in sorted order, each substituted verbatim. -/
def specCompose (tzOffsetMin : Int) (facilitators : List Facilitator)
    (template : String) : String :=
  let sorted := sortFacilitators facilitators
  let facilitatorCards :=
    String.intercalate "\n" (sorted.map (generateCard tzOffsetMin))
  replaceOnceVerbatim
    (replaceOnceVerbatim
      (replaceOnceVerbatim
        (replaceOnceVerbatim template "\x7b\x7bTOTAL_FACILITATORS\x7d\x7d" (toString sorted.length))
        "\x7b\x7bTOTAL_NETWORKS\x7d\x7d" (toString (getTotalNetworks sorted)))
      "\x7b\x7bTOTAL_ADDRESSES\x7d\x7d" (toString (getTotalAddresses sorted)))
    "\x7b\x7bFACILITATOR_CARDS\x7d\x7d" facilitatorCards

/-- `sub` occurs contiguously inside `s`. -/
def strContains (s sub : String) : Prop :=
  sub.data <:+: s.data

instance (s sub : String) : Decidable (strContains s sub) :=
  inferInstanceAs (Decidable (_ <:+: _))

/-- The string has no dollar character, so JS replacement-pattern escaping
leaves it unchanged. -/
def noDollar (s : String) : Prop :=
  '$' ∉ s.data

instance (s : String) : Decidable (noDollar s) :=
  inferInstanceAs (Decidable ('$' ∉ s.data))

/-- Sample token. -/
def tokUSDC : TokenRef := ⟨"USDC"⟩

/-- Address first used on 2025-11-06 (the treasure facilitator's Base
address from the catalog). -/
def addrNov : Address :=
  ⟨"0xe07e9cbf9a55d02e3ac356ed4706353d98c5a618", [tokUSDC],
    some (mkDateMs 2025 11 6)⟩

/-- Address first used on 2025-03-01. -/
def addrMar : Address :=
  ⟨"0x1111111111111111111111111111111111111111", [tokUSDC],
    some (mkDateMs 2025 3 1)⟩

/-- Address with no recorded first transaction. -/
def addrPlain : Address :=
  ⟨"0x2222222222222222222222222222222222222222", [], none⟩

/-- Second address with no recorded first transaction. -/
def addrPlainB : Address :=
  ⟨"0x3333333333333333333333333333333333333333", [], none⟩

/-- Concrete facilitator with dated addresses 2025-11-06 and 2025-03-01,
the example of the specification. -/
def facDated : Facilitator :=
  ⟨"treasure",
    ⟨"Treasure", "https://images.treasure.lol/treasure.png",
      "https://x402.treasure.lol/facilitator", "#DC2626"⟩,
    "https://x402.treasure.lol/facilitator", 0, none,
    [(.base, [addrNov]), (.polygon, [addrMar])]⟩

/-- Concrete facilitator with one undated address. -/
def facOne : Facilitator :=
  ⟨"alpha",
    ⟨"Alpha", "https://example.com/a.png", "https://example.com/docs", "#000000"⟩,
    "https://example.com/facilitator", 0, none,
    [(.base, [addrPlain])]⟩

/-- Concrete facilitator with two addresses, so it sorts ahead of
`facOne`. -/
def facTwo : Facilitator :=
  ⟨"beta",
    ⟨"Beta", "https://example.com/b.png", "https://example.com/docs-b", "#111111"⟩,
    "https://example.com/facilitator-b", 1, some "open",
    [(.solana, [addrPlain, addrPlainB])]⟩

/-- A second one-address facilitator, tied with `facOne` on address
count. -/
def facEqB : Facilitator := { facOne with id := "gamma" }

/-- `facOne` with gated access. -/
def facGated : Facilitator := { facOne with accessType := some "gated" }

/-- `facOne` with gated paid access. -/
def facGatedPaid : Facilitator := { facOne with accessType := some "gated_paid" }

/-- `facOne` with a 2.5 percent fee. -/
def facFee : Facilitator := { facOne with fee := mkRat 5 2 }

/-- `facOne` with a negative fee, outside the documented range. -/
def facFeeNeg : Facilitator := { facOne with fee := -1 }

/-- `facOne` with an id containing JS replacement-pattern characters. -/
def facDollar : Facilitator := { facOne with id := "$$" }

/-- A template containing each of the four placeholders once. -/
def tplAll : String :=
  "<n>\x7b\x7bTOTAL_FACILITATORS\x7d\x7d</n><m>\x7b\x7bTOTAL_NETWORKS\x7d\x7d</m><a>\x7b\x7bTOTAL_ADDRESSES\x7d\x7d</a><c>\x7b\x7bFACILITATOR_CARDS\x7d\x7d</c>"

set_option maxRecDepth 2000

theorem strContains_appL {a sub : String} (b : String) (h : strContains a sub) :
    strContains (a ++ b) sub := by
  unfold strContains at h ⊢
  simp only [String.data_append]
  exact h.trans ⟨[], b.data, by simp⟩

theorem strContains_appR {b sub : String} (a : String) (h : strContains b sub) :
    strContains (a ++ b) sub := by
  unfold strContains at h ⊢
  simp only [String.data_append]
  exact h.trans ⟨a.data, [], by simp⟩

theorem strContains_self (s : String) : strContains s s :=
  ⟨[], [], by simp⟩

theorem foldl_add_sum {α : Type} (g : α → Nat) :
    ∀ (l : List α) (n : Nat), l.foldl (fun t x => t + g x) n = n + (l.map g).sum
  | [], n => by simp
  | x :: l, n => by
    rw [List.foldl_cons, foldl_add_sum g l]
    simp [Nat.add_assoc]

theorem getTotalAddresses_go :
    ∀ (c : List Facilitator) (n : Nat),
      c.foldl
        (fun total f =>
          (f.addresses.map Prod.snd).foldl
            (fun t addresses => t + addresses.length) total) n
        = n + specTotalAddresses c
  | [], n => by simp [specTotalAddresses]
  | f :: c, n => by
    rw [List.foldl_cons, getTotalAddresses_go c, foldl_add_sum List.length]
    simp [specTotalAddresses, List.map_map, Nat.add_assoc, Function.comp_def]

theorem foldl_insert_finset :
    ∀ (l : List String) (s : Finset String),
      l.foldl (fun acc n => insert n acc) s = s ∪ l.toFinset
  | [], s => by simp
  | a :: l, s => by
    rw [List.foldl_cons, foldl_insert_finset l]
    ext x
    simp


theorem getTotalNetworks_go :
    ∀ (c : List Facilitator) (s : Finset String),
      c.foldl
        (fun networks f =>
          (f.addresses.map (fun p => p.1.key)).foldl
            (fun acc n => insert n acc) networks) s
        = s ∪ specNetworkSet c
  | [], s => by simp [specNetworkSet]
  | f :: c, s => by
    rw [List.foldl_cons, getTotalNetworks_go c, foldl_insert_finset]
    simp [specNetworkSet, Finset.union_assoc]

/-- C1: for every catalog, `totalAddresses` is the sum of address-array
lengths over every facilitator and network bucket, and `totalNetworks` is
the cardinality of the set of distinct network keys appearing anywhere in
the catalog, so a network shared by several facilitators counts once. -/
theorem C1_totals (c : List Facilitator) :
    getTotalAddresses c = specTotalAddresses c
    ∧ getTotalNetworks c = (specNetworkSet c).card := by
  constructor
  · simpa using getTotalAddresses_go c 0
  · unfold getTotalNetworks
    rw [getTotalNetworks_go]
    simp

/-- C2: the catalog sort used for the rendered cards orders facilitators
by total address count descending, is stable (a tied pair keeps its
catalog order), and permutes the catalog. `generateHTML` renders exactly
`sortFacilitators` of its input, so the cards appear in this order. -/
theorem C2_sorted_stable (c : List Facilitator) :
    (sortFacilitators c).Pairwise
      (fun a b => getTotalAddressesForFacilitator b ≤ getTotalAddressesForFacilitator a)
    ∧ (∀ a b : Facilitator,
        getTotalAddressesForFacilitator a = getTotalAddressesForFacilitator b →
        List.Sublist [a, b] c → List.Sublist [a, b] (sortFacilitators c))
    ∧ List.Perm (sortFacilitators c) c := by
  letI : IsTotal Facilitator cardOrder := ⟨fun a b => Nat.le_total _ _⟩
  letI : IsTrans Facilitator cardOrder := ⟨fun a b d h1 h2 => le_trans h2 h1⟩
  refine ⟨?_, ?_, List.perm_insertionSort cardOrder c⟩
  · exact List.sorted_insertionSort cardOrder c
  · intro a b h hsub
    exact List.pair_sublist_insertionSort (le_of_eq h.symm) hsub

/-- Witness for C2: a concrete two-facilitator catalog with tied address
counts keeps its original order through the sort. -/
theorem C2_witness :
    List.Sublist [facOne, facEqB] (sortFacilitators [facOne, facEqB]) :=
  (C2_sorted_stable [facOne, facEqB]).2.1 facOne facEqB (by decide)
    (List.Sublist.refl _)

/-- C7: for every address string and network the resolved explorer link is
that network's distinct base followed by "/address/" and the address
verbatim; the rendered address row carries the link, the explorer display
name (BaseScan, PolygonScan, Solana Explorer respectively) and the
network's icon filename; bases, icons and display names are pairwise
distinct. -/
theorem C7_explorer_links (addr : Address) (n : Network) :
    (getExplorerUrl addr.address n = explorerBase n ++ "/address/" ++ addr.address
     ∧ strContains (addressItem n addr) (getExplorerUrl addr.address n)
     ∧ strContains (addressItem n addr) (explorerName n.key)
     ∧ strContains (addressItem n addr) (getNetworkIcon n))
    ∧ (explorerName Network.base.key = "BaseScan"
       ∧ explorerName Network.polygon.key = "PolygonScan"
       ∧ explorerName Network.solana.key = "Solana Explorer")
    ∧ [explorerBase .base, explorerBase .polygon, explorerBase .solana].Nodup
    ∧ [getNetworkIcon .base, getNetworkIcon .polygon, getNetworkIcon .solana].Nodup
    ∧ [explorerName Network.base.key, explorerName Network.polygon.key,
        explorerName Network.solana.key].Nodup := by
  refine ⟨⟨?_, ?_, ?_, ?_⟩, by decide, by decide, by decide, by decide⟩
  · cases n <;> rfl
  · unfold addressItem
    apply strContains_appL
    apply strContains_appL
    apply strContains_appL
    apply strContains_appL
    apply strContains_appL
    apply strContains_appL
    apply strContains_appL
    exact strContains_appR _ (strContains_self _)
  · unfold addressItem
    apply strContains_appL
    exact strContains_appR _ (strContains_self _)
  · unfold addressItem
    apply strContains_appL
    apply strContains_appL
    apply strContains_appL
    apply strContains_appL
    apply strContains_appL
    exact strContains_appR _ (strContains_self _)

/-- C5: a card renders no access icon for `accessType` open or absent,
exactly one lock icon (and no money icon) for gated, and a lock icon
directly followed by a money icon for gated paid; the icon markup appears
in the rendered card. -/
theorem C5_access_icons (tz : Int) (f : Facilitator) :
    ((f.accessType = none ∨ f.accessType = some "open") →
      getAccessTypeIcons f.accessType = "" ∧ accessIconsBlock f = "")
    ∧ (f.accessType = some "gated" →
      getAccessTypeIcons f.accessType = "<span class=\"access-icon\">🔒</span>"
      ∧ accessIconsBlock f
          = "<div class=\"access-icons\"><span class=\"access-icon\">🔒</span></div>"
      ∧ strContains (generateCard tz f) "<span class=\"access-icon\">🔒</span>")
    ∧ (f.accessType = some "gated_paid" →
      getAccessTypeIcons f.accessType
          = "<span class=\"access-icon\">🔒</span><span class=\"access-icon\">💰</span>"
      ∧ strContains (generateCard tz f)
          "<span class=\"access-icon\">🔒</span><span class=\"access-icon\">💰</span>") := by
  refine ⟨?_, ?_, ?_⟩
  · rintro (h | h) <;>
      · rw [show accessIconsBlock f = "" by unfold accessIconsBlock; rw [h]; rfl]
        rw [show getAccessTypeIcons f.accessType = "" by rw [h]; decide]
        exact ⟨rfl, rfl⟩
  · intro h
    have hb : accessIconsBlock f
        = "<div class=\"access-icons\"><span class=\"access-icon\">🔒</span></div>" := by
      unfold accessIconsBlock
      rw [h]
      rfl
    refine ⟨by rw [h]; decide, hb, ?_⟩
    unfold generateCard
    apply strContains_appL
    apply strContains_appL
    apply strContains_appL
    apply strContains_appL
    apply strContains_appL
    apply strContains_appR
    rw [hb]
    decide
  · intro h
    have hb : accessIconsBlock f
        = "<div class=\"access-icons\"><span class=\"access-icon\">🔒</span><span class=\"access-icon\">💰</span></div>" := by
      unfold accessIconsBlock
      rw [h]
      rfl
    refine ⟨by rw [h]; decide, ?_⟩
    unfold generateCard
    apply strContains_appL
    apply strContains_appL
    apply strContains_appL
    apply strContains_appL
    apply strContains_appL
    apply strContains_appR
    rw [hb]
    decide

/-- Witness for C5: the three access situations at concrete
facilitators. -/
theorem C5_witness :
    (getAccessTypeIcons facOne.accessType = "" ∧ accessIconsBlock facOne = "")
    ∧ strContains (generateCard 0 facGated) "<span class=\"access-icon\">🔒</span>"
    ∧ strContains (generateCard 0 facGatedPaid)
        "<span class=\"access-icon\">🔒</span><span class=\"access-icon\">💰</span>" :=
  ⟨(C5_access_icons 0 facOne).1 (Or.inl rfl),
    ((C5_access_icons 0 facGated).2.1 rfl).2.2,
    ((C5_access_icons 0 facGatedPaid).2.2 rfl).2⟩

theorem strContains_join (l1 m x y : String) :
    strContains ((l1 ++ m) ++ (x ++ y)) (m ++ x) := by
  unfold strContains
  simp only [String.data_append]
  exact ⟨l1.data, y.data, by simp⟩

/-- C6: for a fee within the documented range 0 to 100, the card shows the
literal text 0% Fee when the fee is zero, and otherwise the fee value in
JS decimal notation followed by % Fee. -/
theorem C6_fee_display (tz : Int) (f : Facilitator) :
    (f.fee = 0 →
      feeDisplay f = "<span class=\"fee-display\">0% Fee</span>"
      ∧ strContains (generateCard tz f) "0% Fee")
    ∧ (0 < f.fee → f.fee ≤ 100 →
      feeDisplay f
          = "<span class=\"fee-display\">" ++ jsNumToString f.fee ++ "% Fee</span>"
      ∧ strContains (generateCard tz f) (jsNumToString f.fee ++ "% Fee")) := by
  constructor
  · intro h
    have hd : feeDisplay f = "<span class=\"fee-display\">0% Fee</span>" := by
      unfold feeDisplay
      rw [h]
      decide
    refine ⟨hd, ?_⟩
    unfold generateCard
    apply strContains_appL
    apply strContains_appL
    apply strContains_appL
    apply strContains_appR
    rw [hd]
    decide
  · intro h _
    have hd : feeDisplay f
        = "<span class=\"fee-display\">" ++ jsNumToString f.fee ++ "% Fee</span>" := by
      unfold feeDisplay
      rw [if_pos h]
    refine ⟨hd, ?_⟩
    unfold generateCard
    apply strContains_appL
    apply strContains_appL
    apply strContains_appL
    apply strContains_appR
    rw [hd, show ("% Fee</span>" : String) = "% Fee" ++ "</span>" from by decide]
    exact strContains_join _ _ _ _

/-- Witness for C6: a zero-fee facilitator shows 0% Fee and a fee of 2.5
shows 2.5% Fee. -/
theorem C6_witness :
    (feeDisplay facOne = "<span class=\"fee-display\">0% Fee</span>"
     ∧ strContains (generateCard 0 facOne) "0% Fee")
    ∧ strContains (generateCard 0 facFee) "2.5% Fee" := by
  refine ⟨(C6_fee_display 0 facOne).1 (by decide), ?_⟩
  have h := ((C6_fee_display 0 facFee).2 (by decide) (by decide)).2
  rw [show jsNumToString facFee.fee ++ "% Fee" = "2.5% Fee" from by decide] at h
  exact h

/-- C10: a strictly negative fee, outside the documented range, still
renders the literal text 0% Fee (the display branch tests fee greater
than zero) while the data-fee attribute value is paid (the free test is
fee equal to zero), so the two classifications disagree exactly there. -/
theorem C10_negative_fee (tz : Int) (f : Facilitator) (h : f.fee < 0) :
    feeDisplay f = "<span class=\"fee-display\">0% Fee</span>"
    ∧ dataFee f = "paid"
    ∧ strContains (generateCard tz f) "0% Fee" := by
  have hd : feeDisplay f = "<span class=\"fee-display\">0% Fee</span>" := by
    unfold feeDisplay
    rw [if_neg (by simpa using le_of_lt h)]
  refine ⟨hd, ?_, ?_⟩
  · unfold dataFee
    rw [if_neg (ne_of_lt h)]
  · unfold generateCard
    apply strContains_appL
    apply strContains_appL
    apply strContains_appL
    apply strContains_appR
    rw [hd]
    decide

/-- Witness for C10: the fee of minus one. -/
theorem C10_witness :
    feeDisplay facFeeNeg = "<span class=\"fee-display\">0% Fee</span>"
    ∧ dataFee facFeeNeg = "paid"
    ∧ strContains (generateCard 0 facFeeNeg) "0% Fee" :=
  C10_negative_fee 0 facFeeNeg (by decide)

theorem foldl_min_props :
    ∀ (l : List Int) (d : Int),
      (l.foldl min d = d ∨ l.foldl min d ∈ l)
      ∧ l.foldl min d ≤ d ∧ (∀ x ∈ l, l.foldl min d ≤ x)
  | [], d => by simp
  | c :: l, d => by
    obtain ⟨hmem, hle, hall⟩ := foldl_min_props l (min d c)
    rw [List.foldl_cons]
    refine ⟨?_, ?_, ?_⟩
    · rcases hmem with h | h
      · rcases le_total d c with hdc | hcd
        · left
          rw [h, min_eq_left hdc]
        · right
          rw [h, min_eq_right hcd]
          exact List.mem_cons_self c l
      · exact Or.inr (List.mem_cons_of_mem c h)
    · exact le_trans hle (min_le_left d c)
    · intro x hx
      rcases List.mem_cons.mp hx with rfl | hx
      · exact le_trans hle (min_le_right d x)
      · exact hall x hx

/-- C4 counterexample: on a host five hours behind UTC (offset -300
minutes) the facilitator with dated addresses 2025-11-06 and 2025-03-01
renders the first-transaction date Feb 28, 2025, not Mar 1, 2025:
`toLocaleDateString` formats the UTC-midnight timestamp in the host time
zone, so the displayed date is not determined by the catalog alone. -/
theorem C4_counterexample :
    getFirstTransactionDate (-300) facDated = some "Feb 28, 2025"
    ∧ strContains (generateCard (-300) facDated) "Feb 28, 2025"
    ∧ ("Feb 28, 2025" : String) ≠ "Mar 1, 2025" := by
  have hsome : getFirstTransactionDate (-300) facDated = some "Feb 28, 2025" := by
    decide
  refine ⟨hsome, ?_, by decide⟩
  have hb : firstTransactionBlock (-300) facDated
      = "\n        <div class=\"info-row\">\n          <span class=\"info-label\">First Transaction</span>\n          <span class=\"info-value\">"
        ++ "Feb 28, 2025"
        ++ "</span>\n        </div>\n        " := by
    simp only [firstTransactionBlock, hsome]
  unfold generateCard
  apply strContains_appL
  apply strContains_appR
  rw [hb]
  apply strContains_appL
  exact strContains_appR _ (strContains_self _)

/-- C4 (amended): the card carries a first-transaction block exactly when
some address has a date; the displayed date is the minimum timestamp over
all dated addresses, formatted in the host time zone; on a host at UTC
(offset 0, the documented build environment) the example facilitator with
addresses dated 2025-11-06 and 2025-03-01 displays exactly Mar 1, 2025. -/
theorem C4_first_transaction :
    (∀ (tz : Int) (f : Facilitator),
      ((datesOf f = [] ↔ getFirstTransactionDate tz f = none)
       ∧ (getFirstTransactionDate tz f = none → firstTransactionBlock tz f = ""))
      ∧ (∀ d rest, datesOf f = d :: rest →
          ∃ m, m ∈ datesOf f ∧ (∀ x ∈ datesOf f, m ≤ x)
            ∧ getFirstTransactionDate tz f = some (formatLocaleDate tz m)
            ∧ strContains (generateCard tz f) (formatLocaleDate tz m)))
    ∧ getFirstTransactionDate 0 facDated = some "Mar 1, 2025"
    ∧ strContains (generateCard 0 facDated) "Mar 1, 2025" := by
  have main : ∀ (tz : Int) (f : Facilitator),
      ((datesOf f = [] ↔ getFirstTransactionDate tz f = none)
       ∧ (getFirstTransactionDate tz f = none → firstTransactionBlock tz f = ""))
      ∧ (∀ d rest, datesOf f = d :: rest →
          ∃ m, m ∈ datesOf f ∧ (∀ x ∈ datesOf f, m ≤ x)
            ∧ getFirstTransactionDate tz f = some (formatLocaleDate tz m)
            ∧ strContains (generateCard tz f) (formatLocaleDate tz m)) := by
    intro tz f
    refine ⟨⟨⟨fun h => by simp [getFirstTransactionDate, h], fun h => ?_⟩,
      fun h => ?_⟩, ?_⟩
    · cases hd : datesOf f with
      | nil => rfl
      | cons d rest => simp [getFirstTransactionDate, hd] at h
    · unfold firstTransactionBlock
      rw [h]
    · intro d rest hd
      obtain ⟨hmem, hle, hall⟩ := foldl_min_props rest d
      have hsome : getFirstTransactionDate tz f
          = some (formatLocaleDate tz (rest.foldl min d)) := by
        simp [getFirstTransactionDate, hd]
      refine ⟨rest.foldl min d, ?_, ?_, hsome, ?_⟩
      · rw [hd]
        rcases hmem with h | h
        · rw [h]
          exact List.mem_cons_self d rest
        · exact List.mem_cons_of_mem d h
      · intro x hx
        rw [hd] at hx
        rcases List.mem_cons.mp hx with rfl | hx
        · exact hle
        · exact hall x hx
      · have hb : firstTransactionBlock tz f
            = "\n        <div class=\"info-row\">\n          <span class=\"info-label\">First Transaction</span>\n          <span class=\"info-value\">"
              ++ formatLocaleDate tz (rest.foldl min d)
              ++ "</span>\n        </div>\n        " := by
          simp only [firstTransactionBlock, hsome]
        unfold generateCard
        apply strContains_appL
        apply strContains_appR
        rw [hb]
        apply strContains_appL
        exact strContains_appR _ (strContains_self _)
  have hconcrete : getFirstTransactionDate 0 facDated = some "Mar 1, 2025" := by
    decide
  refine ⟨main, hconcrete, ?_⟩
  obtain ⟨m, -, -, hsome, hcont⟩ :=
    (main 0 facDated).2 (mkDateMs 2025 11 6) [mkDateMs 2025 3 1] (by decide)
  have hm : formatLocaleDate 0 m = "Mar 1, 2025" :=
    Option.some.inj (hsome.symm.trans hconcrete)
  rwa [hm] at hcont

/-- Witness for C4: the no-date facilitator omits the block; the dated
facilitator displays the minimum of its dates. -/
theorem C4_witness :
    (getFirstTransactionDate 0 facOne = none
     ∧ firstTransactionBlock 0 facOne = "")
    ∧ ∃ m, m ∈ datesOf facDated ∧ (∀ x ∈ datesOf facDated, m ≤ x)
        ∧ getFirstTransactionDate 0 facDated = some (formatLocaleDate 0 m)
        ∧ strContains (generateCard 0 facDated) (formatLocaleDate 0 m) := by
  have h1 := (C4_first_transaction.1 0 facOne).1
  have h2 := (C4_first_transaction.1 0 facDated).2
      (mkDateMs 2025 11 6) [mkDateMs 2025 3 1] (by decide)
  exact ⟨⟨h1.1.mp (by decide), h1.2 (h1.1.mp (by decide))⟩, h2⟩

theorem getSubstitution_no_dollar (m b a : List Char) :
    ∀ (l : List Char), '$' ∉ l → getSubstitution m b a l = l
  | [], _ => rfl
  | [_], _ => rfl
  | c :: d :: rest, h => by
    have hc : ¬ c = '$' := fun e => by
      subst e
      exact h (List.mem_cons_self _ _)
    have h2 : '$' ∉ d :: rest := fun hm => h (List.mem_cons_of_mem c hm)
    simp only [getSubstitution, if_neg hc]
    rw [getSubstitution_no_dollar m b a (d :: rest) h2]

theorem findSplit_none (pat : List Char) :
    ∀ (s : List Char), ¬ pat <:+: s → findSplit pat s = none
  | [], h => by
    rw [findSplit, if_neg (fun hp => h hp.isInfix)]
  | c :: rest, h => by
    rw [findSplit, if_neg (fun hp => h hp.isInfix),
      findSplit_none pat rest
        (fun hi => h (hi.trans (List.suffix_cons c rest).isInfix))]

theorem jsReplace_not_found (s pat rep : String) (h : ¬ pat.data <:+: s.data) :
    jsReplace s pat rep = s := by
  unfold jsReplace
  rw [findSplit_none pat.data s.data h]

theorem jsReplace_verbatim (s pat rep : String) (h : noDollar rep) :
    jsReplace s pat rep = replaceOnceVerbatim s pat rep := by
  unfold jsReplace replaceOnceVerbatim
  cases hf : findSplit pat.data s.data with
  | none => rfl
  | some p =>
    obtain ⟨b, a⟩ := p
    simp only
    rw [getSubstitution_no_dollar pat.data b a rep.data h]

/-- C3 counterexample: `String.prototype.replace` interprets dollar
escapes in the replacement text, so a card whose facilitator id contains
the two characters dollar-dollar is inserted with them collapsed to a
single dollar: the composed page differs from the verbatim substitution
the claim describes. -/
theorem C3_counterexample :
    (generateHTML 0 [facDollar] "<c>\x7b\x7bFACILITATOR_CARDS\x7d\x7d</c>").1
      ≠ specCompose 0 [facDollar] "<c>\x7b\x7bFACILITATOR_CARDS\x7d\x7d</c>" := by
  decide

/-- C3 (amended): each of the four placeholders is replaced exactly once,
at its first occurrence, with the corresponding value passed through the
JS replacement-pattern rules; whenever the inserted values contain no
dollar character (true of the decimal totals and of every catalog card)
the substitution is verbatim as the claim states; a template in which a
placeholder does not occur is returned with that token untouched and no
error. -/
theorem C3_substitution (tz : Int) (c : List Facilitator) (t : String) :
    (noDollar (toString (sortFacilitators c).length) →
     noDollar (toString (getTotalNetworks (sortFacilitators c))) →
     noDollar (toString (getTotalAddresses (sortFacilitators c))) →
     noDollar (String.intercalate "\n" ((sortFacilitators c).map (generateCard tz))) →
     (generateHTML tz c t).1 = specCompose tz c t)
    ∧ (∀ pat rep : String, ¬ pat.data <:+: t.data → jsReplace t pat rep = t) := by
  constructor
  · intro h1 h2 h3 h4
    unfold generateHTML specCompose
    simp only
    rw [jsReplace_verbatim _ _ _ h1, jsReplace_verbatim _ _ _ h2,
      jsReplace_verbatim _ _ _ h3, jsReplace_verbatim _ _ _ h4]
  · intro pat rep h
    exact jsReplace_not_found t pat rep h

/-- Witness for C3: the composition equality at a concrete catalog and a
template holding all four placeholders, and the no-substitution outcome on
a template without the placeholder. -/
theorem C3_witness :
    (generateHTML 0 [] tplAll).1 = specCompose 0 [] tplAll
    ∧ jsReplace "abc" "\x7b\x7bTOTAL_NETWORKS\x7d\x7d" "9" = "abc" :=
  ⟨(C3_substitution 0 [] tplAll).1 (by decide) (by decide) (by decide) (by decide),
    (C3_substitution 0 [] "abc").2 "\x7b\x7bTOTAL_NETWORKS\x7d\x7d" "9" (by decide)⟩

/-- C8: generation is a pure function of the catalog, the template and
the host time zone, so equal inputs give byte-identical output; moreover
rendering twice in sequence — the second run over the catalog array the
first run sorted in place — also reproduces the identical page, because
the stable sort is idempotent. -/
theorem C8_deterministic (tz : Int) (c : List Facilitator) (t : String) :
    generateHTML tz (generateHTML tz c t).2 t = generateHTML tz c t := by
  letI : IsTotal Facilitator cardOrder := ⟨fun a b => Nat.le_total _ _⟩
  letI : IsTrans Facilitator cardOrder := ⟨fun a b d h1 h2 => le_trans h2 h1⟩
  have hs : sortFacilitators (sortFacilitators c) = sortFacilitators c :=
    List.Sorted.insertionSort_eq (List.sorted_insertionSort cardOrder c)
  show generateHTML tz (sortFacilitators c) t = generateHTML tz c t
  unfold generateHTML
  rw [show sortFacilitators (sortFacilitators c) = sortFacilitators c from hs]

/-- C9 counterexample: running the generator on a catalog whose first
facilitator has fewer addresses than its second reorders the module-level
array in place — after the run the array no longer equals its initial
value, so the catalog is not left unchanged. -/
theorem C9_counterexample :
    (generateHTML 0 [facOne, facTwo] "page").2 ≠ [facOne, facTwo] := by
  decide

/-- C9 (amended): generation mutates only the order of the catalog array:
the post-run array is exactly the in-place stable sort of the input by
descending address count — a permutation of the input records, every
record itself unchanged — rather than the untouched input the claim
requires. -/
theorem C9_sort_in_place (tz : Int) (c : List Facilitator) (t : String) :
    List.Perm (generateHTML tz c t).2 c
    ∧ (generateHTML tz c t).2 = sortFacilitators c :=
  ⟨List.perm_insertionSort cardOrder c, rfl⟩
